import Mathlib

/-
Shallow embedding of `dj_twilio_sms/decorators.py` (the `twilio_view`
decorator) and proofs about its request-guarding behaviour.

The decorator wraps a Django view.  On each request it
  1. rejects non-POST methods with `HttpResponseNotAllowed(request.method)`;
  2. unless `settings.TWILIO_SKIP_SIGNATURE_VALIDATION` is set, gathers the
     auth token, the URL (reconstructed from forwarded-proxy headers when
     `HTTP_X_FORWARDED_SERVER` is present) and the `HTTP_X_TWILIO_SIGNATURE`
     header, answering 403 `"Missing META param: ..."` when any is absent;
  3. checks the Twilio signature, answering 403 `"Invalid signature"` on a
     mismatch unless `settings.SMS_DEBUG` is set;
  4. calls the wrapped view and coerces its result (text / TwiML object /
     ready HttpResponse) into an HTTP response.

The vendor SDK's `RequestValidator.validate` is an external collaborator;
the embedding abstracts it as a boolean function parameter
`validate : token → url → post → signature → Bool`.  Logging calls are
modelled as a list of `LogEvent`s in the guard's output, and handler
invocation is recorded as the list of `(request, args)` pairs the wrapped
view was called with.
-/

namespace DjTwilioSms

/-- The subset of `django.conf.settings` read by the decorator:
`TWILIO_SKIP_SIGNATURE_VALIDATION` and `SMS_DEBUG` are read with
`getattr(..., False)` (so they are total booleans defaulting to false),
while `TWILIO_AUTH_TOKEN` is accessed directly and raises `AttributeError`
when absent, hence an `Option`. -/
structure Settings where
  TWILIO_SKIP_SIGNATURE_VALIDATION : Bool
  SMS_DEBUG : Bool
  TWILIO_AUTH_TOKEN : Option String
  deriving DecidableEq, Repr

/-- A Django `HttpRequest` as far as the decorator observes it: the HTTP
method, the `META` mapping (headers and CGI variables), the `POST`
mapping (ordered field/value pairs), and the value
`request.build_absolute_uri()` would return (the server's local view of
the URL). -/
structure Request where
  method : String
  META : List (String × String)
  POST : List (String × String)
  absolute_uri : String
  deriving DecidableEq, Repr

/-- Dictionary lookup in a `META`-style association list; `none` models a
`KeyError` / failed `in` test. -/
def metaGet (meta : List (String × String)) (key : String) : Option String :=
  (meta.find? (fun p => p.1 == key)).map Prod.snd

/-- `request.build_absolute_uri()`: the framework-provided local URL. -/
def Request.build_absolute_uri (r : Request) : String :=
  r.absolute_uri

/-- A Django `HttpResponse`: status code, header bag, body. -/
structure HttpResp where
  status : Nat
  headers : List (String × String)
  body : String
  deriving DecidableEq, Repr

/-- `HttpResponse(content, mimetype=...)`: status 200 with the given
content type and body. -/
def HttpResponse (content : String) (mimetype : String) : HttpResp :=
  { status := 200, headers := [("Content-Type", mimetype)], body := content }

/-- `HttpResponseForbidden(content)`: status 403 with Django's default
content type. -/
def HttpResponseForbidden (content : String) : HttpResp :=
  { status := 403
    headers := [("Content-Type", "text/html; charset=utf-8")]
    body := content }

/-- `HttpResponseNotAllowed(permitted_methods)`: status 405; Django sets
the `Allow` header to the comma-join of the iterable it is given. -/
def HttpResponseNotAllowed (permitted_methods : List String) : HttpResp :=
  { status := 405
    headers := [("Allow", String.intercalate ", " permitted_methods),
                ("Content-Type", "text/html; charset=utf-8")]
    body := "" }

/-- A `twilio.twiml.TwiML` markup object, observed only through its
textual serialisation. -/
structure TwiML where
  text : String
  deriving DecidableEq, Repr

/-- `django.utils.encoding.force_text` applied to a TwiML object:
its serialised form. -/
def force_text (t : TwiML) : String :=
  t.text

/-- The duck-typed result a wrapped view may return: a text string, a
TwiML object, or a ready `HttpResponse`. -/
inductive HandlerResult where
  | text (s : String)
  | twiml (t : TwiML)
  | response (r : HttpResp)
  deriving DecidableEq, Repr

/-- The logging calls the decorator makes, one constructor per call site:
`logger.error("Twilio: Expected POST request")`,
`logger.exception("Twilio: Missing META param")` and
`logger.error("Twilio: Invalid url signature ...")`. -/
inductive LogEvent where
  | expectedPost
  | missingMetaParam (msg : String)
  | invalidSignature (url : String) (post : List (String × String)) (signature : String)
  deriving DecidableEq, Repr

/-- Everything observable about one pass through the decorated view: the
HTTP response produced, the list of `(request, extra-args)` pairs the
wrapped view was invoked with, and the log records emitted. -/
structure GuardOutput (Args : Type) where
  response : HttpResp
  handlerCalls : List (Request × Args)
  logs : List LogEvent
  deriving DecidableEq, Repr

/-- The `try:` block of the decorator (decorators.py lines 60-69): build
the `RequestValidator` from `settings.TWILIO_AUTH_TOKEN` (an
`AttributeError` when the setting is absent, whose message is Django's
`'Settings' object has no attribute ...`), compute the URL — reconstructed
as `proto://server + REQUEST_URI` from the forwarded-proxy META entries
when `HTTP_X_FORWARDED_SERVER` is present, the local
`build_absolute_uri()` otherwise — and read the
`HTTP_X_TWILIO_SIGNATURE` header; a `KeyError e` carries the quoted key
name, matching Python's `"%s" % e`.  Returns `(token, url, signature)` or
the exception text. -/
def gatherValidationParams (settings : Settings) (request : Request) :
    Except String (String × String × String) :=
  match settings.TWILIO_AUTH_TOKEN with
  | none => Except.error "'Settings' object has no attribute 'TWILIO_AUTH_TOKEN'"
  | some token =>
    let urlResult : Except String String :=
      if (metaGet request.META "HTTP_X_FORWARDED_SERVER").isSome then
        match metaGet request.META "HTTP_X_FORWARDED_PROTO",
              metaGet request.META "HTTP_X_FORWARDED_SERVER",
              metaGet request.META "REQUEST_URI" with
        | none, _, _ => Except.error "'HTTP_X_FORWARDED_PROTO'"
        | some _, none, _ => Except.error "'HTTP_X_FORWARDED_SERVER'"
        | some _, some _, none => Except.error "'REQUEST_URI'"
        | some proto, some server, some requestUri =>
          Except.ok (proto ++ "://" ++ server ++ requestUri)
      else
        Except.ok request.build_absolute_uri
    match urlResult with
    | Except.error e => Except.error e
    | Except.ok url =>
      match metaGet request.META "HTTP_X_TWILIO_SIGNATURE" with
      | none => Except.error "'HTTP_X_TWILIO_SIGNATURE'"
      | some signature => Except.ok (token, url, signature)

/-- The validation block of the decorator (decorators.py lines 58-81):
`none` means the request may proceed to the wrapped view; `some` carries
the early 403 response and the log records emitted.  When
`TWILIO_SKIP_SIGNATURE_VALIDATION` is set the whole block is skipped.
Otherwise a failed gather yields 403 `"Missing META param: ..."`, and a
failed signature check yields 403 `"Invalid signature"` — except that the
source guards that branch with `and not getattr(settings, "SMS_DEBUG",
False)`, so with `SMS_DEBUG` set a mismatch falls through with no response
and, notably, no log record. -/
def signatureGuard
    (validate : String → String → List (String × String) → String → Bool)
    (settings : Settings) (request : Request) :
    Option (HttpResp × List LogEvent) :=
  if !settings.TWILIO_SKIP_SIGNATURE_VALIDATION then
    match gatherValidationParams settings request with
    | Except.error e =>
      some (HttpResponseForbidden ("Missing META param: " ++ e),
            [LogEvent.missingMetaParam e])
    | Except.ok (token, url, signature) =>
      if !validate token url request.POST signature && !settings.SMS_DEBUG then
        some (HttpResponseForbidden "Invalid signature",
              [LogEvent.invalidSignature url request.POST signature])
      else
        none
  else
    none

/-- Coercion of the wrapped view's result (decorators.py lines 91-96):
text and TwiML become 200 `"application/xml"` responses, anything else is
passed through unchanged. -/
def coerceResult (result : HandlerResult) : HttpResp :=
  match result with
  | HandlerResult.text s => HttpResponse s "application/xml"
  | HandlerResult.twiml t => HttpResponse (force_text t) "application/xml"
  | HandlerResult.response r => r

/-- The decorated view produced by `twilio_view(f)` (decorators.py lines
48-96).  `validate` abstracts the Twilio SDK call
`RequestValidator(token).validate(url, request.POST, signature)`.
Non-POST requests get `HttpResponseNotAllowed(request.method)` — note the
source passes the request's own method string, which Python iterates
character by character when Django joins the permitted methods.
Otherwise the request passes `signatureGuard`, then reaches the wrapped
view exactly once and its result is coerced by `coerceResult`. -/
def twilio_view {Args : Type}
    (validate : String → String → List (String × String) → String → Bool)
    (settings : Settings) (f : Request → Args → HandlerResult)
    (request : Request) (args : Args) : GuardOutput Args :=
  if request.method ≠ "POST" then
    { response := HttpResponseNotAllowed
        (request.method.toList.map (fun c => String.singleton c))
      handlerCalls := []
      logs := [LogEvent.expectedPost] }
  else
    match signatureGuard validate settings request with
    | some (resp, logs) => { response := resp, handlerCalls := [], logs := logs }
    | none =>
      { response := coerceResult (f request args)
        handlerCalls := [(request, args)]
        logs := [] }

/-! Concrete fixtures used by witnesses and counterexamples. -/

/-- A validator that accepts every signature. -/
def vAccept : String → String → List (String × String) → String → Bool :=
  fun _ _ _ _ => true

/-- A validator that rejects every signature. -/
def vReject : String → String → List (String × String) → String → Bool :=
  fun _ _ _ _ => false

/-- Settings with validation on, debug off, a token configured. -/
def settingsStrict : Settings :=
  { TWILIO_SKIP_SIGNATURE_VALIDATION := false
    SMS_DEBUG := false
    TWILIO_AUTH_TOKEN := some "token123" }

/-- Settings with validation on, `SMS_DEBUG` set, a token configured. -/
def settingsDebug : Settings :=
  { TWILIO_SKIP_SIGNATURE_VALIDATION := false
    SMS_DEBUG := true
    TWILIO_AUTH_TOKEN := some "token123" }

/-- Settings with `TWILIO_SKIP_SIGNATURE_VALIDATION` set and no token. -/
def settingsSkip : Settings :=
  { TWILIO_SKIP_SIGNATURE_VALIDATION := true
    SMS_DEBUG := false
    TWILIO_AUTH_TOKEN := none }

/-- Settings with validation on but no `TWILIO_AUTH_TOKEN` configured. -/
def settingsNoToken : Settings :=
  { TWILIO_SKIP_SIGNATURE_VALIDATION := false
    SMS_DEBUG := false
    TWILIO_AUTH_TOKEN := none }

/-- A POST request carrying a Twilio signature header. -/
def reqSigned : Request :=
  { method := "POST"
    META := [("HTTP_X_TWILIO_SIGNATURE", "sig0")]
    POST := [("Body", "hello")]
    absolute_uri := "http://local.example/sms/" }

/-- A POST request with no signature header and no forwarded headers. -/
def reqNoSig : Request :=
  { method := "POST"
    META := []
    POST := []
    absolute_uri := "http://local.example/sms/" }

/-- A GET request (otherwise identical to `reqSigned`). -/
def reqGet : Request :=
  { reqSigned with method := "GET" }

/-- A POST request behind a proxy: full forwarded-header trio plus a
signature, with a local URI that differs from the forwarded one. -/
def reqForwarded : Request :=
  { method := "POST"
    META := [("HTTP_X_FORWARDED_SERVER", "public.example"),
             ("HTTP_X_FORWARDED_PROTO", "https"),
             ("REQUEST_URI", "/sms/inbound/"),
             ("HTTP_X_TWILIO_SIGNATURE", "sig0")]
    POST := []
    absolute_uri := "http://local.internal/sms/" }

/-- A handler returning fixed TwiML text; `Unit` stands for the extra
view arguments. -/
def handlerText : Request → Unit → HandlerResult :=
  fun _ _ => HandlerResult.text "<Response></Response>"

/-- A ready-made response with non-default status, headers and body. -/
def respPrebuilt : HttpResp :=
  { status := 204, headers := [("X-Custom", "yes")], body := "done" }

/-- A handler returning the pre-built response `respPrebuilt`. -/
def handlerResp : Request → Unit → HandlerResult :=
  fun _ _ => HandlerResult.response respPrebuilt

/-- A validator that accepts exactly the forwarded (externally visible)
URL of `reqForwarded` and rejects every other URL, in particular the
server's local view `reqForwarded.absolute_uri`. -/
def vMatchForwarded : String → String → List (String × String) → String → Bool :=
  fun _ url _ _ => url == "https://public.example/sms/inbound/"

/-! Helper lemmas shared by the claim theorems. -/

/-- When the signature header is absent the gather step always fails,
whatever the settings and the forwarded headers. -/
theorem gather_error_of_no_signature (settings : Settings) (request : Request)
    (hsig : metaGet request.META "HTTP_X_TWILIO_SIGNATURE" = none) :
    ∃ e, gatherValidationParams settings request = Except.error e := by
  unfold gatherValidationParams
  cases settings.TWILIO_AUTH_TOKEN with
  | none => exact ⟨_, rfl⟩
  | some token =>
    dsimp only
    split
    · exact ⟨_, rfl⟩
    · rw [hsig]
      exact ⟨_, rfl⟩

/-- A request that reached the wrapped view (its call list is nonempty)
produces exactly the accept output: the coerced handler result, a single
handler call, no logs. -/
theorem twilio_view_accept {Args : Type}
    (validate : String → String → List (String × String) → String → Bool)
    (settings : Settings) (f : Request → Args → HandlerResult)
    (request : Request) (args : Args)
    (h : (twilio_view validate settings f request args).handlerCalls ≠ []) :
    twilio_view validate settings f request args
      = { response := coerceResult (f request args)
          handlerCalls := [(request, args)]
          logs := [] } := by
  by_cases hm : request.method = "POST"
  · cases hg : signatureGuard validate settings request with
    | none => simp [twilio_view, hm, hg]
    | some p =>
      exfalso
      apply h
      simp [twilio_view, hm, hg]
  · exfalso
    apply h
    simp [twilio_view, hm]

/-! Claim theorems. -/

/-- C1: for every POST request whose validation parameters (token, URL,
signature header) are all present but whose signature does not validate,
with `SMS_DEBUG` unset and validation not skipped, the guard answers
403 `"Invalid signature"` and the wrapped view is never invoked. -/
theorem C1_invalid_signature_forbidden {Args : Type}
    (validate : String → String → List (String × String) → String → Bool)
    (settings : Settings) (f : Request → Args → HandlerResult)
    (request : Request) (args : Args) (token url signature : String)
    (hm : request.method = "POST")
    (hskip : settings.TWILIO_SKIP_SIGNATURE_VALIDATION = false)
    (hdebug : settings.SMS_DEBUG = false)
    (hgather : gatherValidationParams settings request
      = Except.ok (token, url, signature))
    (hval : validate token url request.POST signature = false) :
    (twilio_view validate settings f request args).response
      = HttpResponseForbidden "Invalid signature" ∧
    (twilio_view validate settings f request args).response.status = 403 ∧
    (twilio_view validate settings f request args).handlerCalls = [] := by
  refine ⟨?_, ?_, ?_⟩ <;>
    simp [twilio_view, signatureGuard, hm, hskip, hdebug, hgather, hval,
      HttpResponseForbidden]

/-- C1 witness: a concrete POST request with a signature header, a
rejecting validator, and strict settings is answered 403
`"Invalid signature"` with no handler call. -/
theorem C1_invalid_signature_forbidden_witness :
    (twilio_view vReject settingsStrict handlerText reqSigned ()).response
      = HttpResponseForbidden "Invalid signature" ∧
    (twilio_view vReject settingsStrict handlerText reqSigned ()).response.status = 403 ∧
    (twilio_view vReject settingsStrict handlerText reqSigned ()).handlerCalls = [] :=
  C1_invalid_signature_forbidden vReject settingsStrict handlerText reqSigned ()
    "token123" "http://local.example/sms/" "sig0" rfl rfl rfl rfl rfl

/-- C2: a POST request without the `HTTP_X_TWILIO_SIGNATURE` header (and
validation not skipped) is answered 403 with a body naming a missing
field, and the wrapped view is never invoked; when the auth token is
configured and no forwarded-host header interferes, the body names
exactly the missing signature header. -/
theorem C2_missing_signature_forbidden {Args : Type}
    (validate : String → String → List (String × String) → String → Bool)
    (settings : Settings) (f : Request → Args → HandlerResult)
    (request : Request) (args : Args)
    (hm : request.method = "POST")
    (hskip : settings.TWILIO_SKIP_SIGNATURE_VALIDATION = false)
    (hsig : metaGet request.META "HTTP_X_TWILIO_SIGNATURE" = none) :
    (∃ e, (twilio_view validate settings f request args).response
      = HttpResponseForbidden ("Missing META param: " ++ e)) ∧
    (twilio_view validate settings f request args).handlerCalls = [] ∧
    (∀ token, settings.TWILIO_AUTH_TOKEN = some token →
      metaGet request.META "HTTP_X_FORWARDED_SERVER" = none →
      (twilio_view validate settings f request args).response
        = HttpResponseForbidden
            "Missing META param: 'HTTP_X_TWILIO_SIGNATURE'") := by
  obtain ⟨e, he⟩ := gather_error_of_no_signature settings request hsig
  refine ⟨⟨e, ?_⟩, ?_, ?_⟩
  · simp [twilio_view, signatureGuard, hm, hskip, he]
  · simp [twilio_view, signatureGuard, hm, hskip, he]
  · intro token htok hfw
    have hg : gatherValidationParams settings request
        = Except.error "'HTTP_X_TWILIO_SIGNATURE'" := by
      unfold gatherValidationParams
      rw [htok]
      simp [hfw, hsig]
    simp [twilio_view, signatureGuard, hm, hskip, hg]

/-- C2 witness: a concrete POST request with an empty `META` under strict
settings is answered 403 naming `HTTP_X_TWILIO_SIGNATURE`, with no
handler call. -/
theorem C2_missing_signature_forbidden_witness :
    (∃ e, (twilio_view vAccept settingsStrict handlerText reqNoSig ()).response
      = HttpResponseForbidden ("Missing META param: " ++ e)) ∧
    (twilio_view vAccept settingsStrict handlerText reqNoSig ()).handlerCalls = [] ∧
    (∀ token, settingsStrict.TWILIO_AUTH_TOKEN = some token →
      metaGet reqNoSig.META "HTTP_X_FORWARDED_SERVER" = none →
      (twilio_view vAccept settingsStrict handlerText reqNoSig ()).response
        = HttpResponseForbidden
            "Missing META param: 'HTTP_X_TWILIO_SIGNATURE'") :=
  C2_missing_signature_forbidden vAccept settingsStrict handlerText reqNoSig ()
    rfl rfl rfl

/-- C3 counterexample: with `SMS_DEBUG` set and a failing signature on a
concrete POST request, the decorator emits NO log record at all (the
claim says the mismatch is demoted to a warning log entry), while the
wrapped view is indeed invoked. -/
theorem C3_counterexample :
    (twilio_view vReject settingsDebug handlerText reqSigned ()).logs = [] ∧
    (twilio_view vReject settingsDebug handlerText reqSigned ()).handlerCalls
      = [(reqSigned, ())] :=
  ⟨rfl, rfl⟩

/-- C3 (amended): with `SMS_DEBUG` set, a failing signature on a POST
request is silently ignored — no log record is emitted — and the request
is treated as a success: the wrapped view is invoked once with the
original request and arguments. -/
theorem C3_debug_override_invokes_handler {Args : Type}
    (validate : String → String → List (String × String) → String → Bool)
    (settings : Settings) (f : Request → Args → HandlerResult)
    (request : Request) (args : Args) (token url signature : String)
    (hm : request.method = "POST")
    (hskip : settings.TWILIO_SKIP_SIGNATURE_VALIDATION = false)
    (hdebug : settings.SMS_DEBUG = true)
    (hgather : gatherValidationParams settings request
      = Except.ok (token, url, signature))
    (hval : validate token url request.POST signature = false) :
    (twilio_view validate settings f request args).handlerCalls
      = [(request, args)] ∧
    (twilio_view validate settings f request args).logs = [] := by
  constructor <;>
    simp [twilio_view, signatureGuard, hm, hskip, hdebug, hgather, hval]

/-- C3 witness: concrete debug-mode instance of the amended theorem. -/
theorem C3_debug_override_invokes_handler_witness :
    (twilio_view vReject settingsDebug handlerText reqSigned ()).handlerCalls
      = [(reqSigned, ())] ∧
    (twilio_view vReject settingsDebug handlerText reqSigned ()).logs = [] :=
  C3_debug_override_invokes_handler vReject settingsDebug handlerText reqSigned ()
    "token123" "http://local.example/sms/" "sig0" rfl rfl rfl rfl rfl

/-- C4: for a POST request carrying the forwarded-host header
(`HTTP_X_FORWARDED_SERVER`), the URL offered to the validator is the
reconstruction `proto://host + REQUEST_URI` from the forwarded headers,
not the server's local `build_absolute_uri()`: the gather step yields
exactly that URL and the validator's verdict on it decides
acceptance/rejection; and when the forwarded-protocol or the original
request URI is absent, the guard answers 403 naming the missing field
with no handler call. -/
theorem C4_forwarded_url_reconstruction {Args : Type}
    (validate : String → String → List (String × String) → String → Bool)
    (settings : Settings) (f : Request → Args → HandlerResult)
    (request : Request) (args : Args) (token server : String)
    (hm : request.method = "POST")
    (hskip : settings.TWILIO_SKIP_SIGNATURE_VALIDATION = false)
    (htok : settings.TWILIO_AUTH_TOKEN = some token)
    (hsrv : metaGet request.META "HTTP_X_FORWARDED_SERVER" = some server) :
    (∀ proto requestUri signature,
      metaGet request.META "HTTP_X_FORWARDED_PROTO" = some proto →
      metaGet request.META "REQUEST_URI" = some requestUri →
      metaGet request.META "HTTP_X_TWILIO_SIGNATURE" = some signature →
      gatherValidationParams settings request
        = Except.ok (token, proto ++ "://" ++ server ++ requestUri, signature) ∧
      (validate token (proto ++ "://" ++ server ++ requestUri)
          request.POST signature = true →
        (twilio_view validate settings f request args).handlerCalls
          = [(request, args)]) ∧
      (validate token (proto ++ "://" ++ server ++ requestUri)
          request.POST signature = false →
        settings.SMS_DEBUG = false →
        (twilio_view validate settings f request args).response
          = HttpResponseForbidden "Invalid signature" ∧
        (twilio_view validate settings f request args).handlerCalls = [])) ∧
    (metaGet request.META "HTTP_X_FORWARDED_PROTO" = none →
      (twilio_view validate settings f request args).response
        = HttpResponseForbidden "Missing META param: 'HTTP_X_FORWARDED_PROTO'" ∧
      (twilio_view validate settings f request args).handlerCalls = []) ∧
    (∀ proto, metaGet request.META "HTTP_X_FORWARDED_PROTO" = some proto →
      metaGet request.META "REQUEST_URI" = none →
      (twilio_view validate settings f request args).response
        = HttpResponseForbidden "Missing META param: 'REQUEST_URI'" ∧
      (twilio_view validate settings f request args).handlerCalls = []) := by
  refine ⟨?_, ?_, ?_⟩
  · intro proto requestUri signature hproto huri hsig
    have hg : gatherValidationParams settings request
        = Except.ok (token, proto ++ "://" ++ server ++ requestUri, signature) := by
      unfold gatherValidationParams
      rw [htok]
      simp [hsrv, hproto, huri, hsig]
    refine ⟨hg, ?_, ?_⟩
    · intro hv
      simp [twilio_view, signatureGuard, hm, hskip, hg, hv]
    · intro hv hdebug
      constructor <;>
        simp [twilio_view, signatureGuard, hm, hskip, hg, hv, hdebug]
  · intro hproto
    have hg : gatherValidationParams settings request
        = Except.error "'HTTP_X_FORWARDED_PROTO'" := by
      unfold gatherValidationParams
      rw [htok]
      simp [hsrv, hproto]
    constructor <;> simp [twilio_view, signatureGuard, hm, hskip, hg]
  · intro proto hproto huri
    have hg : gatherValidationParams settings request
        = Except.error "'REQUEST_URI'" := by
      unfold gatherValidationParams
      rw [htok]
      simp [hsrv, hproto, huri]
    constructor <;> simp [twilio_view, signatureGuard, hm, hskip, hg]

/-- C4 witness: for the concrete proxied request `reqForwarded` (whose
local URI differs from the forwarded one), the gather step returns the
reconstructed forwarded URL, and a validator accepting exactly that
forwarded URL lets the request through to the handler. -/
theorem C4_forwarded_url_reconstruction_witness :
    gatherValidationParams settingsStrict reqForwarded
      = Except.ok ("token123", "https://public.example/sms/inbound/", "sig0") ∧
    (twilio_view vMatchForwarded settingsStrict handlerText reqForwarded
        ()).handlerCalls = [(reqForwarded, ())] := by
  have h := C4_forwarded_url_reconstruction vMatchForwarded settingsStrict
    handlerText reqForwarded () "token123" "public.example" rfl rfl rfl rfl
  obtain ⟨hg, hcall, _⟩ := h.1 "https" "/sms/inbound/" "sig0" rfl rfl rfl
  exact ⟨hg, hcall rfl⟩

/-- C5: the code bug, evaluated at the failing input `reqGet` (a GET
request).  The guard does answer 405 without invoking the handler, but the
`Allow` header is built from the request's own method — Django joins the
iterable `request.method`, giving `"G, E, T"` — instead of listing the
one permitted method `POST`. -/
theorem C5_notallowed_lists_request_method :
    (twilio_view vAccept settingsStrict handlerText reqGet ()).response.status
      = 405 ∧
    (twilio_view vAccept settingsStrict handlerText reqGet ()).handlerCalls
      = [] ∧
    (twilio_view vAccept settingsStrict handlerText reqGet ()).response
      = HttpResponseNotAllowed ["G", "E", "T"] ∧
    metaGet (twilio_view vAccept settingsStrict handlerText reqGet
        ()).response.headers "Allow" = some "G, E, T" ∧
    "G, E, T" ≠ "POST" := by
  refine ⟨rfl, rfl, rfl, rfl, by decide⟩

/-- C6: a POST request whose gathered (token, URL, signature) triple
passes the validator reaches the wrapped view exactly once, with the
original request and arguments unmodified. -/
theorem C6_valid_signature_invokes_handler_once {Args : Type}
    (validate : String → String → List (String × String) → String → Bool)
    (settings : Settings) (f : Request → Args → HandlerResult)
    (request : Request) (args : Args) (token url signature : String)
    (hm : request.method = "POST")
    (hskip : settings.TWILIO_SKIP_SIGNATURE_VALIDATION = false)
    (hgather : gatherValidationParams settings request
      = Except.ok (token, url, signature))
    (hval : validate token url request.POST signature = true) :
    (twilio_view validate settings f request args).handlerCalls
      = [(request, args)] := by
  simp [twilio_view, signatureGuard, hm, hskip, hgather, hval]

/-- C6 witness: a concrete signed POST request under strict settings and
an accepting validator reaches the handler exactly once. -/
theorem C6_valid_signature_invokes_handler_once_witness :
    (twilio_view vAccept settingsStrict handlerText reqSigned ()).handlerCalls
      = [(reqSigned, ())] :=
  C6_valid_signature_invokes_handler_once vAccept settingsStrict handlerText
    reqSigned () "token123" "http://local.example/sms/" "sig0" rfl rfl rfl rfl

/-- C7: when an accepted request's wrapped view returns plain text, the
final response has status 200, content type `"application/xml"`, and a
body exactly equal to the returned text. -/
theorem C7_text_result_wrapped_as_xml {Args : Type}
    (validate : String → String → List (String × String) → String → Bool)
    (settings : Settings) (f : Request → Args → HandlerResult)
    (request : Request) (args : Args) (s : String)
    (haccept : (twilio_view validate settings f request args).handlerCalls ≠ [])
    (hf : f request args = HandlerResult.text s) :
    (twilio_view validate settings f request args).response
      = HttpResponse s "application/xml" ∧
    (twilio_view validate settings f request args).response.status = 200 ∧
    metaGet (twilio_view validate settings f request args).response.headers
      "Content-Type" = some "application/xml" ∧
    (twilio_view validate settings f request args).response.body = s := by
  rw [twilio_view_accept validate settings f request args haccept]
  refine ⟨?_, ?_, ?_, ?_⟩ <;> simp [coerceResult, hf, HttpResponse, metaGet]

/-- C7 witness: with validation skipped, a concrete request whose handler
returns the text `"<Response></Response>"` yields a 200
`"application/xml"` response with exactly that body. -/
theorem C7_text_result_wrapped_as_xml_witness :
    (twilio_view vAccept settingsSkip handlerText reqNoSig ()).response
      = HttpResponse "<Response></Response>" "application/xml" ∧
    (twilio_view vAccept settingsSkip handlerText reqNoSig ()).response.status
      = 200 ∧
    metaGet (twilio_view vAccept settingsSkip handlerText reqNoSig
        ()).response.headers "Content-Type" = some "application/xml" ∧
    (twilio_view vAccept settingsSkip handlerText reqNoSig ()).response.body
      = "<Response></Response>" :=
  C7_text_result_wrapped_as_xml vAccept settingsSkip handlerText reqNoSig ()
    "<Response></Response>" (by decide) rfl

/-- C8: when an accepted request's wrapped view returns a pre-built HTTP
response object, the guard returns that very object — status, headers and
body unmodified. -/
theorem C8_prebuilt_response_passthrough {Args : Type}
    (validate : String → String → List (String × String) → String → Bool)
    (settings : Settings) (f : Request → Args → HandlerResult)
    (request : Request) (args : Args) (r : HttpResp)
    (haccept : (twilio_view validate settings f request args).handlerCalls ≠ [])
    (hf : f request args = HandlerResult.response r) :
    (twilio_view validate settings f request args).response = r := by
  rw [twilio_view_accept validate settings f request args haccept]
  simp [coerceResult, hf]

/-- C8 witness: a handler returning the pre-built `respPrebuilt` (status
204, custom header, body `"done"`) gets it back untouched. -/
theorem C8_prebuilt_response_passthrough_witness :
    (twilio_view vAccept settingsSkip handlerResp reqNoSig ()).response
      = respPrebuilt :=
  C8_prebuilt_response_passthrough vAccept settingsSkip handlerResp reqNoSig ()
    respPrebuilt (by decide) rfl

/-- C9: with `TWILIO_SKIP_SIGNATURE_VALIDATION` set, every POST request —
whatever its `META` contents, in particular with no signature header and
no forwarded headers — bypasses the whole validation block: the wrapped
view is invoked once with the original request and arguments, the
response is just the coerced handler result, and nothing is logged. -/
theorem C9_skip_validation_bypasses_checks {Args : Type}
    (validate : String → String → List (String × String) → String → Bool)
    (settings : Settings) (f : Request → Args → HandlerResult)
    (request : Request) (args : Args)
    (hm : request.method = "POST")
    (hskip : settings.TWILIO_SKIP_SIGNATURE_VALIDATION = true) :
    twilio_view validate settings f request args
      = { response := coerceResult (f request args)
          handlerCalls := [(request, args)]
          logs := [] } := by
  simp [twilio_view, signatureGuard, hm, hskip]

/-- C9 witness: with skipping on and no auth token configured, a POST
request with a completely empty `META` (no signature header) still
reaches the handler instead of being rejected with 403. -/
theorem C9_skip_validation_bypasses_checks_witness :
    twilio_view vReject settingsSkip handlerText reqNoSig ()
      = { response := coerceResult (handlerText reqNoSig ())
          handlerCalls := [(reqNoSig, ())]
          logs := [] } :=
  C9_skip_validation_bypasses_checks vReject settingsSkip handlerText reqNoSig ()
    rfl rfl

/-- C10: with validation enabled but no `TWILIO_AUTH_TOKEN` in the
settings, every POST request is answered 403 with a body naming the
missing attribute (the `AttributeError` text), the wrapped view is never
invoked, and the guard returns an ordinary response rather than letting
the error escape. -/
theorem C10_missing_auth_token_forbidden {Args : Type}
    (validate : String → String → List (String × String) → String → Bool)
    (settings : Settings) (f : Request → Args → HandlerResult)
    (request : Request) (args : Args)
    (hm : request.method = "POST")
    (hskip : settings.TWILIO_SKIP_SIGNATURE_VALIDATION = false)
    (htok : settings.TWILIO_AUTH_TOKEN = none) :
    (twilio_view validate settings f request args).response
      = HttpResponseForbidden
          "Missing META param: 'Settings' object has no attribute 'TWILIO_AUTH_TOKEN'" ∧
    (twilio_view validate settings f request args).response.status = 403 ∧
    (twilio_view validate settings f request args).handlerCalls = [] := by
  have hg : gatherValidationParams settings request
      = Except.error "'Settings' object has no attribute 'TWILIO_AUTH_TOKEN'" := by
    unfold gatherValidationParams
    rw [htok]
  refine ⟨?_, ?_, ?_⟩ <;>
    simp [twilio_view, signatureGuard, hm, hskip, hg, HttpResponseForbidden]

/-- C10 witness: a concrete signed POST request under token-less settings
is answered 403 naming `TWILIO_AUTH_TOKEN`, with no handler call. -/
theorem C10_missing_auth_token_forbidden_witness :
    (twilio_view vAccept settingsNoToken handlerText reqSigned ()).response
      = HttpResponseForbidden
          "Missing META param: 'Settings' object has no attribute 'TWILIO_AUTH_TOKEN'" ∧
    (twilio_view vAccept settingsNoToken handlerText reqSigned
        ()).response.status = 403 ∧
    (twilio_view vAccept settingsNoToken handlerText reqSigned ()).handlerCalls
      = [] :=
  C10_missing_auth_token_forbidden vAccept settingsNoToken handlerText reqSigned ()
    rfl rfl rfl

end DjTwilioSms
